import Mathlib

/-!
# Verification of the jemalloc decay controller

A shallow embedding of the decay controller declared in
`include/jemalloc/internal/decay.h`.  The header ships the data model
(`struct decay_s`) and the public contracts; the function bodies
(`decay.c`) and the smoothstep table (`smoothstep.h`) are not part of the
sources at hand, so the algorithms are modelled from the specification's
component design (state container, epoch advancer, curve evaluator, jitter
generator).  Timestamps and durations are natural numbers (the unsigned
`nstime_t`), `time_ms` is a mathematical integer (the signed `ssize_t`
`atomic_zd_t`), and page counts are natural numbers (`size_t`); the mutex
and the atomics are concurrency primitives outside the embedding, so the
state is a plain record and every operation is a pure function on it.
-/

namespace Decay

/-- Modelled from the spec: `SMOOTHSTEP_NSTEPS`, the fixed resolution of the
curve and of the backlog (`smoothstep.h` is missing from the sources; the
spec's scenario uses `NSTEPS = 200`). -/
def SMOOTHSTEP_NSTEPS : Nat := 200

/-- Modelled from the spec: the fixed-point scale of the curve table, so that
the value `SMOOTHSTEP_ONE` represents the fraction `1`. -/
def SMOOTHSTEP_ONE : Nat := 2 ^ 24

/-- Modelled from the spec: the fixed monotonic nonlinear ("smoothstep")
lookup table, in fixed point: entry `j` is `⌊smooth(j / (NSTEPS-1)) * ONE⌋`
for the smooth polynomial `x^2 * (3 - 2*x)`, so `curve 0 = 0` and
`curve (NSTEPS - 1) = ONE` (fraction 1). -/
def smoothstep_curve (j : Nat) : Nat :=
  j ^ 2 * (3 * (SMOOTHSTEP_NSTEPS - 1) - 2 * j) * SMOOTHSTEP_ONE
    / (SMOOTHSTEP_NSTEPS - 1) ^ 3

/-- The decay state, translated field by field from `struct decay_s` in
`decay.h` (the mutex is a concurrency primitive and is not modelled; the
backlog array `size_t backlog[SMOOTHSTEP_NSTEPS]` is a list whose length is
kept at `SMOOTHSTEP_NSTEPS` by every operation). -/
structure decay_s where
  purging : Bool
  time_ms : Int
  interval : Nat
  epoch : Nat
  jitter_state : Nat
  deadline : Nat
  npages_limit : Nat
  nunpurged : Nat
  backlog : List Nat
  ceil_npages : Nat
  deriving Repr, DecidableEq

/-- The zero-valued state required as `decay_init`'s precondition ("as if
with memset"). -/
def zero_decay : decay_s :=
  { purging := false, time_ms := 0, interval := 0, epoch := 0,
    jitter_state := 0, deadline := 0, npages_limit := 0, nunpurged := 0,
    backlog := List.replicate SMOOTHSTEP_NSTEPS 0, ceil_npages := 0 }

/-- `decay_ms_read`: the (benignly racy) read of `time_ms`. -/
def decay_ms_read (decay : decay_s) : Int :=
  decay.time_ms

/-- `decay_npages_limit_get`: the last-computed budget. -/
def decay_npages_limit_get (decay : decay_s) : Nat :=
  decay.npages_limit

/-- `decay_epoch_npages_delta`: the most recent backlog entry,
`backlog[SMOOTHSTEP_NSTEPS - 1]`. -/
def decay_epoch_npages_delta (decay : decay_s) : Nat :=
  decay.backlog.getD (SMOOTHSTEP_NSTEPS - 1) 0

/-- Modelled from the spec: the implementation-defined maximum for a valid
non-negative `decay_ms` (the body of `decay_ms_valid` is missing from the
sources). -/
def DECAY_MS_MAX : Int := 18446744072 * 1000

/-- Modelled from the spec: `decay_ms_valid` — true iff `decay_ms` is `-1`
(never decay), `0` (decay immediately), or a non-negative integer at most
the implementation-defined maximum. -/
def decay_ms_valid (decay_ms : Int) : Bool :=
  decide (-1 ≤ decay_ms ∧ decay_ms ≤ DECAY_MS_MAX)

/-- Modelled from the spec: the interval derived from `time_ms`,
`time_ms / NSTEPS` for a non-negative `time_ms`; the sentinel `-1` has no
duration and derives the zero interval. -/
def decay_interval_derive (decay_ms : Int) : Nat :=
  if 0 ≤ decay_ms then decay_ms.toNat / SMOOTHSTEP_NSTEPS else 0

/-- Modelled from the spec: one step of the deadline-randomness generator, a
xorshift-class PRNG on 64-bit state. -/
def prng_step (s : Nat) : Nat :=
  let s1 := (s ^^^ (s <<< 13)) % 2 ^ 64
  let s2 := (s1 ^^^ (s1 >>> 7)) % 2 ^ 64
  (s2 ^^^ (s2 <<< 17)) % 2 ^ 64

/-- Modelled from the spec: the jitter generator — advance `jitter_state`
and return a duration in `[0, interval)`; for `interval = 0` that range is
empty and the spec leaves the value unconstrained, so the model returns `0`
(the only value consistent with a deadline of `epoch + interval + jitter`).
Result: (jitter value, new jitter state). -/
def decay_jitter (jitter_state interval : Nat) : Nat × Nat :=
  let s := prng_step jitter_state
  (if interval = 0 then 0 else s % interval, s)

/-- Modelled from the spec: `decay_init` — validates `decay_ms`, and on
success sets `time_ms`, derives `interval`, seeds `jitter_state` from the
caller-chosen entropy, sets `epoch` to the current time, computes the first
deadline, and zeroes the backlog and `npages_limit`.  Returns `true` on
error (invalid `decay_ms`), leaving the state untouched. -/
def decay_init (decay : decay_s) (cur_time entropy : Nat) (decay_ms : Int) :
    Bool × decay_s :=
  if decay_ms_valid decay_ms then
    let interval := decay_interval_derive decay_ms
    let jit := decay_jitter entropy interval
    (false,
      { purging := false, time_ms := decay_ms, interval := interval,
        epoch := cur_time, jitter_state := jit.2,
        deadline := cur_time + interval + jit.1,
        npages_limit := 0, nunpurged := 0,
        backlog := List.replicate SMOOTHSTEP_NSTEPS 0, ceil_npages := 0 })
  else
    (true, decay)

/-- Modelled from the spec: `decay_reinit` — replace `time_ms` and the
derived `interval` of an already-initialized state without disturbing
`epoch`, `deadline`, `backlog`, jitter state, `npages_limit` or
`nunpurged`; the declaration in `decay.h` returns `void`, so no error is
reported. -/
def decay_reinit (decay : decay_s) (decay_ms : Int) : decay_s :=
  { decay with time_ms := decay_ms, interval := decay_interval_derive decay_ms }

/-- Modelled from the spec: fold `nepochs` elapsed epochs into the backlog —
shift left by `nepochs` slots and append the `npages_delta` pages generated
since the last epoch, spread evenly over the new slots with the remainder
in the most recent slot. -/
def decay_backlog_update (backlog : List Nat) (nepochs npages_delta : Nat) :
    List Nat :=
  if nepochs = 0 then backlog
  else
    backlog.drop nepochs
      ++ List.replicate (nepochs - 1) (npages_delta / nepochs)
      ++ [npages_delta / nepochs + npages_delta % nepochs]

/-- Ceiling division on naturals, used to round the budget toward keeping
more pages, never fewer. -/
def ceil_div (a b : Nat) : Nat :=
  (a + b - 1) / b

/-- Modelled from the spec: the backlog weighted by the fraction not yet
decayed — `sum over i of backlog[i] * (ONE - curve[NSTEPS - 1 - i])`, in
fixed point. -/
def decay_backlog_weighted_sum (backlog : List Nat) : Nat :=
  ((List.range SMOOTHSTEP_NSTEPS).map
    (fun i => backlog.getD i 0
      * (SMOOTHSTEP_ONE - smoothstep_curve (SMOOTHSTEP_NSTEPS - 1 - i)))).sum

/-- Modelled from the spec: the curve evaluator — `time_ms = 0` forces a
zero budget and `time_ms = -1` forces a budget that never decreases and
never reports anything to purge, both without consulting the curve;
otherwise the budget is the weighted backlog sum rounded up (toward keeping
more pages) to a whole number of pages. -/
def decay_npages_limit_compute (time_ms : Int) (old_limit current_npages : Nat)
    (backlog : List Nat) : Nat :=
  if time_ms = 0 then 0
  else if time_ms = -1 then max old_limit current_npages
  else ceil_div (decay_backlog_weighted_sum backlog) SMOOTHSTEP_ONE

/-- Modelled from the spec: `decay_maybe_advance_epoch` — return unchanged
with `false` when less than one interval has passed (also when the clock
went backward); otherwise fold the elapsed epochs (clamped to `NSTEPS`)
into the backlog, advance `epoch` by exactly `nepochs * interval`, draw a
fresh jitter for the new deadline, recompute the budget, and report whether
the new budget is strictly below `current_npages`. -/
def decay_maybe_advance_epoch (decay : decay_s) (new_time current_npages : Nat) :
    decay_s × Bool :=
  if new_time < decay.epoch + decay.interval then
    (decay, false)
  else
    let nepochs := min ((new_time - decay.epoch) / decay.interval)
      SMOOTHSTEP_NSTEPS
    let npages_delta := current_npages - decay.nunpurged
    let backlog1 := decay_backlog_update decay.backlog nepochs npages_delta
    let epoch1 := decay.epoch + nepochs * decay.interval
    let jit := decay_jitter decay.jitter_state decay.interval
    let limit1 := decay_npages_limit_compute decay.time_ms decay.npages_limit
      current_npages backlog1
    ({ decay with
        epoch := epoch1
        backlog := backlog1
        nunpurged := current_npages
        jitter_state := jit.2
        deadline := epoch1 + decay.interval + jit.1
        npages_limit := limit1 },
      decide (limit1 < current_npages))

/-- A trace of calls to `decay_maybe_advance_epoch`: fold a list of
`(new_time, current_npages)` pairs through the state. -/
def decay_run (decay : decay_s) (calls : List (Nat × Nat)) : decay_s :=
  calls.foldl (fun d c => (decay_maybe_advance_epoch d c.1 c.2).1) decay

/-- The deadline invariant the model maintains: when the interval is
positive the deadline is `epoch + interval + jitter` for some jitter in
`[0, interval)` (hence strictly beyond `epoch`); when the interval is zero
the deadline coincides with `epoch`. -/
def deadline_ok (decay : decay_s) : Prop :=
  (0 < decay.interval →
    ∃ j, j < decay.interval ∧ decay.deadline = decay.epoch + decay.interval + j) ∧
  (decay.interval = 0 → decay.deadline = decay.epoch)

/-- A sample initialized state (as produced by `decay_init` with
`time_ms = 2000` at time `5`): interval `2000 / NSTEPS = 10`. -/
def sample_decay : decay_s :=
  { purging := false, time_ms := 2000, interval := 10, epoch := 5,
    jitter_state := 7, deadline := 22, npages_limit := 0, nunpurged := 0,
    backlog := List.replicate SMOOTHSTEP_NSTEPS 0, ceil_npages := 0 }

/-- A sample immediate-decay state (`time_ms = 0`, zero interval) with a
nonzero backlog. -/
def sample_immediate : decay_s :=
  { purging := false, time_ms := 0, interval := 0, epoch := 5,
    jitter_state := 7, deadline := 5, npages_limit := 9, nunpurged := 3,
    backlog := List.replicate SMOOTHSTEP_NSTEPS 7, ceil_npages := 0 }

/-- A sample never-decay state (`time_ms = -1`). -/
def sample_never : decay_s :=
  { purging := false, time_ms := -1, interval := 0, epoch := 5,
    jitter_state := 7, deadline := 5, npages_limit := 0, nunpurged := 0,
    backlog := List.replicate SMOOTHSTEP_NSTEPS 0, ceil_npages := 0 }

/-! ## Supporting lemmas -/

/-- Rounding up with `ceil_div` never drops below the exact quotient: the
rounded page count times the scale covers the weighted sum. -/
theorem le_mul_ceil_div (a b : Nat) (hb : 0 < b) : a ≤ b * ceil_div a b := by
  unfold ceil_div
  have h1 := Nat.div_add_mod (a + b - 1) b
  have h2 : (a + b - 1) % b < b := Nat.mod_lt _ hb
  omega

/-- The fixed-point smoothstep table is monotonically increasing across its
`SMOOTHSTEP_NSTEPS` entries. -/
theorem smoothstep_curve_mono :
    ∀ j < SMOOTHSTEP_NSTEPS - 1, smoothstep_curve j ≤ smoothstep_curve (j + 1) := by
  intro j hj
  unfold smoothstep_curve SMOOTHSTEP_NSTEPS SMOOTHSTEP_ONE at *
  apply Nat.div_le_div_right
  apply Nat.mul_le_mul_right
  have ha : j ≤ 198 := by omega
  zify [show 2 * (j + 1) ≤ 3 * (200 - 1) by omega,
    show 2 * j ≤ 3 * (200 - 1) by omega]
  nlinarith [Int.natCast_nonneg j, sq_nonneg ((j : ℤ) + 1)]

/-- The smoothstep table starts at fraction `0` and ends at fraction `1`. -/
theorem smoothstep_curve_endpoints :
    smoothstep_curve 0 = 0 ∧
    smoothstep_curve (SMOOTHSTEP_NSTEPS - 1) = SMOOTHSTEP_ONE := by
  constructor <;> rfl

/-- `decay_maybe_advance_epoch`, once at least one interval has elapsed,
unfolds to the advance branch. -/
theorem maybe_advance_epoch_of_ge (d : decay_s) (t c : Nat)
    (ht : d.epoch + d.interval ≤ t) :
    decay_maybe_advance_epoch d t c =
      (let nepochs := min ((t - d.epoch) / d.interval) SMOOTHSTEP_NSTEPS
       let backlog1 := decay_backlog_update d.backlog nepochs (c - d.nunpurged)
       let epoch1 := d.epoch + nepochs * d.interval
       let jit := decay_jitter d.jitter_state d.interval
       let limit1 := decay_npages_limit_compute d.time_ms d.npages_limit c backlog1
       ({ d with
            epoch := epoch1
            backlog := backlog1
            nunpurged := c
            jitter_state := jit.2
            deadline := epoch1 + d.interval + jit.1
            npages_limit := limit1 },
         decide (limit1 < c))) := by
  unfold decay_maybe_advance_epoch
  rw [if_neg (by omega)]

/-- Epoch advancement never changes the configured decay time. -/
theorem maybe_advance_epoch_time_ms_eq (d : decay_s) (t c : Nat) :
    (decay_maybe_advance_epoch d t c).1.time_ms = d.time_ms := by
  unfold decay_maybe_advance_epoch
  split <;> rfl

/-- For the never-decay sentinel the curve evaluator takes the maximum with
the current page count, so the budget never decreases. -/
theorem npages_limit_compute_neg_one (old c : Nat) (backlog : List Nat) :
    decay_npages_limit_compute (-1) old c backlog = max old c := rfl

/-- A single call on a never-decay state (`time_ms = -1`) reports nothing
to purge. -/
theorem never_decay_step (d : decay_s) (t c : Nat) (h : d.time_ms = -1) :
    (decay_maybe_advance_epoch d t c).2 = false := by
  by_cases hc : t < d.epoch + d.interval
  · unfold decay_maybe_advance_epoch
    rw [if_pos hc]
  · rw [maybe_advance_epoch_of_ge d t c (by omega)]
    dsimp only
    rw [h, npages_limit_compute_neg_one]
    simp only [decide_eq_false_iff_not, Nat.not_lt]
    exact Nat.le_max_right _ _

/-- For a positive interval the jitter is a duration in `[0, interval)`. -/
theorem decay_jitter_lt (js i : Nat) (hi : 0 < i) : (decay_jitter js i).1 < i := by
  unfold decay_jitter
  dsimp only
  rw [if_neg (by omega)]
  exact Nat.mod_lt _ hi

/-- For the empty interval the jitter degenerates to zero. -/
theorem decay_jitter_of_zero (js : Nat) : (decay_jitter js 0).1 = 0 := rfl

/-! ## Claim theorems -/

/-- C1: for a state with `time_ms ≥ 0` and a positive interval, once
`new_time ≥ epoch + interval`, `decay_maybe_advance_epoch` computes
`nepochs = ⌊(new_time - epoch) / interval⌋` clamped to at most
`SMOOTHSTEP_NSTEPS` and advances `epoch` by exactly `nepochs * interval`
(never snapping to `new_time`), so the epoch changes by a whole multiple of
the interval. -/
theorem c1_epoch_advances_by_whole_intervals (d : decay_s) (t c : Nat)
    (hms : 0 ≤ d.time_ms) (hi : 0 < d.interval)
    (ht : d.epoch + d.interval ≤ t) :
    (decay_maybe_advance_epoch d t c).1.epoch =
      d.epoch +
        min ((t - d.epoch) / d.interval) SMOOTHSTEP_NSTEPS * d.interval ∧
    d.interval ∣ ((decay_maybe_advance_epoch d t c).1.epoch - d.epoch) := by
  rw [maybe_advance_epoch_of_ge d t c ht]
  dsimp only
  refine ⟨rfl, ?_⟩
  rw [Nat.add_sub_cancel_left]
  exact dvd_mul_left _ _

/-- C1 witness: at `epoch = 5`, `interval = 10`, `new_time = 127`,
`nepochs = 12` and the epoch advances to `125`, not to `127`. -/
theorem c1_epoch_advances_by_whole_intervals_witness :
    ((0 : Int) ≤ sample_decay.time_ms ∧ 0 < sample_decay.interval ∧
      sample_decay.epoch + sample_decay.interval ≤ 127) ∧
    ((decay_maybe_advance_epoch sample_decay 127 100).1.epoch =
      sample_decay.epoch +
        min ((127 - sample_decay.epoch) / sample_decay.interval)
          SMOOTHSTEP_NSTEPS * sample_decay.interval ∧
    sample_decay.interval ∣
      ((decay_maybe_advance_epoch sample_decay 127 100).1.epoch -
        sample_decay.epoch)) :=
  ⟨⟨by decide, by decide, by decide⟩,
    c1_epoch_advances_by_whole_intervals sample_decay 127 100 (by decide)
      (by decide) (by decide)⟩

/-- C3: whenever the epoch does advance, the call returns `true` exactly
when the freshly recomputed `npages_limit` is strictly less than the
caller-supplied `current_npages`. -/
theorem c3_advance_signals_iff_below_current (d : decay_s) (t c : Nat)
    (ht : d.epoch + d.interval ≤ t) :
    ((decay_maybe_advance_epoch d t c).2 = true ↔
      (decay_maybe_advance_epoch d t c).1.npages_limit < c) := by
  rw [maybe_advance_epoch_of_ge d t c ht]
  dsimp only
  exact decide_eq_true_iff

/-- C3 witness: an advancing call at `new_time = 15` on the sample state. -/
theorem c3_advance_signals_iff_below_current_witness :
    sample_decay.epoch + sample_decay.interval ≤ 15 ∧
    ((decay_maybe_advance_epoch sample_decay 15 100).2 = true ↔
      (decay_maybe_advance_epoch sample_decay 15 100).1.npages_limit < 100) :=
  ⟨by decide, c3_advance_signals_iff_below_current sample_decay 15 100 (by decide)⟩

/-- C4: a call with `new_time < epoch + interval` (which subsumes a clock
that went backward past `epoch`) returns `false` and leaves the state
untouched, so repeating the same non-advancing call is idempotent. -/
theorem c4_stale_call_is_noop (d : decay_s) (t c : Nat)
    (ht : t < d.epoch + d.interval) :
    decay_maybe_advance_epoch d t c = (d, false) ∧
    decay_maybe_advance_epoch (decay_maybe_advance_epoch d t c).1 t c =
      decay_maybe_advance_epoch d t c := by
  have h1 : decay_maybe_advance_epoch d t c = (d, false) := by
    unfold decay_maybe_advance_epoch
    rw [if_pos ht]
  refine ⟨h1, ?_⟩
  rw [h1]
  exact h1

/-- C4 witness: a stale call at `new_time = 7` against `epoch = 5`,
`interval = 10`. -/
theorem c4_stale_call_is_noop_witness :
    7 < sample_decay.epoch + sample_decay.interval ∧
    (decay_maybe_advance_epoch sample_decay 7 3 = (sample_decay, false) ∧
    decay_maybe_advance_epoch (decay_maybe_advance_epoch sample_decay 7 3).1 7 3 =
      decay_maybe_advance_epoch sample_decay 7 3) :=
  ⟨by decide, c4_stale_call_is_noop sample_decay 7 3 (by decide)⟩

/-- C5: on a state configured with `time_ms = 0`, every epoch advance
forces `npages_limit` to `0`, whatever the backlog holds. -/
theorem c5_zero_time_ms_forces_zero_limit (d : decay_s) (t c : Nat)
    (hms : d.time_ms = 0) (ht : d.epoch + d.interval ≤ t) :
    (decay_maybe_advance_epoch d t c).1.npages_limit = 0 := by
  rw [maybe_advance_epoch_of_ge d t c ht]
  dsimp only
  rw [hms]
  rfl

/-- C5 witness: an advancing call on the immediate-decay state whose
backlog entries are all `7`. -/
theorem c5_zero_time_ms_forces_zero_limit_witness :
    (sample_immediate.time_ms = 0 ∧
      sample_immediate.epoch + sample_immediate.interval ≤ 9) ∧
    (decay_maybe_advance_epoch sample_immediate 9 42).1.npages_limit = 0 :=
  ⟨⟨by decide, by decide⟩,
    c5_zero_time_ms_forces_zero_limit sample_immediate 9 42 (by decide) (by decide)⟩

/-- C2: on a state with `time_ms > 0`, every epoch advance recomputes the
budget as the backlog weighted by the not-yet-decayed curve fractions,
`sum over i of backlog[i] * (ONE - curve[NSTEPS - 1 - i])`, rounded up to a
whole page count — so the scaled budget never falls below the exact
weighted sum (more pages are retained, never fewer). -/
theorem c2_limit_is_weighted_backlog_sum (d : decay_s) (t c : Nat)
    (hms : 0 < d.time_ms) (ht : d.epoch + d.interval ≤ t) :
    (decay_maybe_advance_epoch d t c).1.npages_limit =
      ceil_div
        (decay_backlog_weighted_sum (decay_maybe_advance_epoch d t c).1.backlog)
        SMOOTHSTEP_ONE ∧
    decay_backlog_weighted_sum (decay_maybe_advance_epoch d t c).1.backlog ≤
      SMOOTHSTEP_ONE * (decay_maybe_advance_epoch d t c).1.npages_limit := by
  rw [maybe_advance_epoch_of_ge d t c ht]
  dsimp only
  have h0 : ¬ d.time_ms = 0 := by omega
  have h1 : ¬ d.time_ms = -1 := by omega
  rw [decay_npages_limit_compute, if_neg h0, if_neg h1]
  exact ⟨rfl, le_mul_ceil_div _ _ (by norm_num [SMOOTHSTEP_ONE])⟩

/-- C2 witness: an advancing call on the sample state with
`time_ms = 2000`. -/
theorem c2_limit_is_weighted_backlog_sum_witness :
    ((0 : Int) < sample_decay.time_ms ∧
      sample_decay.epoch + sample_decay.interval ≤ 15) ∧
    ((decay_maybe_advance_epoch sample_decay 15 100).1.npages_limit =
      ceil_div
        (decay_backlog_weighted_sum
          (decay_maybe_advance_epoch sample_decay 15 100).1.backlog)
        SMOOTHSTEP_ONE ∧
    decay_backlog_weighted_sum
        (decay_maybe_advance_epoch sample_decay 15 100).1.backlog ≤
      SMOOTHSTEP_ONE * (decay_maybe_advance_epoch sample_decay 15 100).1.npages_limit) :=
  ⟨⟨by decide, by decide⟩,
    c2_limit_is_weighted_backlog_sum sample_decay 15 100 (by decide) (by decide)⟩

/-- C6: a never-decay state (`time_ms = -1`) never reports something to
purge, across any sequence of `decay_maybe_advance_epoch` calls. -/
theorem c6_never_decay_never_signals (d : decay_s) (calls : List (Nat × Nat))
    (t c : Nat) (h : d.time_ms = -1) :
    (decay_maybe_advance_epoch (decay_run d calls) t c).2 = false := by
  have hms : ∀ d0 : decay_s, d0.time_ms = -1 → (decay_run d0 calls).time_ms = -1 := by
    induction calls with
    | nil =>
      intro d0 h0
      exact h0
    | cons a as ih =>
      intro d0 h0
      rw [decay_run, List.foldl_cons]
      exact ih _ (by rw [maybe_advance_epoch_time_ms_eq]; exact h0)
  exact never_decay_step _ t c (hms d h)

/-- C6 witness: two advancing calls and a third query on a `time_ms = -1`
state all report nothing to purge. -/
theorem c6_never_decay_never_signals_witness :
    sample_never.time_ms = -1 ∧
    (decay_maybe_advance_epoch
        (decay_run sample_never [(10, 50), (20, 9)]) 30 5).2 = false :=
  ⟨by decide,
    c6_never_decay_never_signals sample_never [(10, 50), (20, 9)] 30 5 (by decide)⟩

/-- C7 counterexample: `decay_init` succeeds with `time_ms = 0` (interval
zero) and yields `deadline = epoch`, so the deadline is not strictly
greater than the epoch in that reachable state, contrary to the claim. -/
theorem c7_deadline_counterexample :
    (decay_init zero_decay 5 7 0).1 = false ∧
    ¬ ((decay_init zero_decay 5 7 0).2.epoch <
        (decay_init zero_decay 5 7 0).2.deadline) := by
  decide

/-- C7 (amended): after a successful `decay_init` and after every epoch
advance, the deadline is `epoch + interval + jitter` with the jitter drawn
in `[0, interval)` — hence strictly beyond `epoch` — whenever the interval
is positive; when the interval is zero (`time_ms = 0`) the jitter
degenerates to zero and the deadline coincides with `epoch`. -/
theorem c7_deadline_invariant (d : decay_s) (ct en t c : Nat) (ms : Int)
    (hv : decay_ms_valid ms = true) (ht : d.epoch + d.interval ≤ t) :
    deadline_ok (decay_init zero_decay ct en ms).2 ∧
    deadline_ok (decay_maybe_advance_epoch d t c).1 := by
  constructor
  · unfold decay_init
    rw [if_pos hv]
    dsimp only [deadline_ok]
    constructor
    · intro hpos
      exact ⟨(decay_jitter en (decay_interval_derive ms)).1,
        decay_jitter_lt _ _ hpos, rfl⟩
    · intro hz
      rw [hz, decay_jitter_of_zero]
      omega
  · rw [maybe_advance_epoch_of_ge d t c ht]
    dsimp only [deadline_ok]
    constructor
    · intro hpos
      exact ⟨(decay_jitter d.jitter_state d.interval).1,
        decay_jitter_lt _ _ hpos, rfl⟩
    · intro hz
      rw [hz, decay_jitter_of_zero]
      omega

/-- C7 (amended) witness: a successful init with `time_ms = 2000` and an
advancing call on the sample state both satisfy the deadline invariant. -/
theorem c7_deadline_invariant_witness :
    (decay_ms_valid 2000 = true ∧
      sample_decay.epoch + sample_decay.interval ≤ 15) ∧
    (deadline_ok (decay_init zero_decay 5 7 2000).2 ∧
      deadline_ok (decay_maybe_advance_epoch sample_decay 15 100).1) :=
  ⟨⟨by decide, by decide⟩,
    c7_deadline_invariant sample_decay 5 7 15 100 2000 (by decide) (by decide)⟩

/-- C8: starting from the zero-valued state, `decay_init` fails exactly on
the `time_ms` values `decay_ms_valid` rejects, leaves the state zero-valued
on failure, and on success with `time_ms = T ≥ 0` derives
`interval = T / SMOOTHSTEP_NSTEPS` exactly, with a zeroed backlog and a
zero budget. -/
theorem c8_init_validates_and_derives (d : decay_s) (ct en : Nat) (ms : Int)
    (hz : d = zero_decay) :
    ((decay_init d ct en ms).1 = true ↔ decay_ms_valid ms = false) ∧
    ((decay_init d ct en ms).1 = true → (decay_init d ct en ms).2 = zero_decay) ∧
    (0 ≤ ms → (decay_init d ct en ms).1 = false →
      (decay_init d ct en ms).2.interval = ms.toNat / SMOOTHSTEP_NSTEPS ∧
      (decay_init d ct en ms).2.backlog = List.replicate SMOOTHSTEP_NSTEPS 0 ∧
      (decay_init d ct en ms).2.npages_limit = 0) := by
  subst hz
  unfold decay_init
  by_cases hv : decay_ms_valid ms
  · rw [if_pos hv]
    refine ⟨by simp [hv], by simp, ?_⟩
    intro hpos _
    refine ⟨?_, rfl, rfl⟩
    dsimp only
    rw [decay_interval_derive, if_pos hpos]
  · rw [if_neg hv]
    refine ⟨by simp [Bool.not_eq_true] at hv; simp [hv], fun _ => rfl, ?_⟩
    intro _ hfalse
    exact absurd hfalse (by simp)

/-- C8 witness: init with `time_ms = 2000` succeeds and derives
`interval = 10`. -/
theorem c8_init_validates_and_derives_witness :
    (zero_decay = zero_decay ∧ (0 : Int) ≤ 2000 ∧
      (decay_init zero_decay 5 7 2000).1 = false) ∧
    (decay_init zero_decay 5 7 2000).2.interval =
      (2000 : Int).toNat / SMOOTHSTEP_NSTEPS :=
  ⟨⟨rfl, by decide, by decide⟩,
    ((c8_init_validates_and_derives zero_decay 5 7 2000 rfl).2.2 (by decide)
      (by decide)).1⟩

/-- C9: `decay_reinit` replaces exactly `time_ms` and the derived interval,
leaving epoch, deadline, backlog, jitter state, budget, unpurged snapshot
and the collocated caller fields untouched. -/
theorem c9_reinit_preserves_history (d : decay_s) (ms : Int) :
    (decay_reinit d ms).time_ms = ms ∧
    (decay_reinit d ms).interval = decay_interval_derive ms ∧
    (decay_reinit d ms).epoch = d.epoch ∧
    (decay_reinit d ms).deadline = d.deadline ∧
    (decay_reinit d ms).backlog = d.backlog ∧
    (decay_reinit d ms).jitter_state = d.jitter_state ∧
    (decay_reinit d ms).npages_limit = d.npages_limit ∧
    (decay_reinit d ms).nunpurged = d.nunpurged ∧
    (decay_reinit d ms).purging = d.purging ∧
    (decay_reinit d ms).ceil_npages = d.ceil_npages :=
  ⟨rfl, rfl, rfl, rfl, rfl, rfl, rfl, rfl, rfl, rfl⟩

/-- C10: `decay_reinit` is a total function with no error result — even for
a `time_ms` that `decay_ms_valid` rejects it completes and applies the new
configuration — whereas `decay_init` reports the error by returning
`true`. -/
theorem c10_reinit_reports_no_error (d : decay_s) (ct en : Nat) (ms : Int)
    (hinv : decay_ms_valid ms = false) :
    (decay_reinit d ms).time_ms = ms ∧
    (decay_reinit d ms).interval = decay_interval_derive ms ∧
    (decay_init zero_decay ct en ms).1 = true := by
  refine ⟨rfl, rfl, ?_⟩
  unfold decay_init
  rw [if_neg (by simp [hinv])]

/-- C10 witness: `time_ms = -2` is rejected by `decay_ms_valid`, yet
`decay_reinit` installs it while `decay_init` fails. -/
theorem c10_reinit_reports_no_error_witness :
    decay_ms_valid (-2) = false ∧
    ((decay_reinit sample_decay (-2)).time_ms = -2 ∧
      (decay_reinit sample_decay (-2)).interval = decay_interval_derive (-2) ∧
      (decay_init zero_decay 5 7 (-2)).1 = true) :=
  ⟨by decide, c10_reinit_reports_no_error sample_decay 5 7 (-2) (by decide)⟩

end Decay
